import Mathlib

/-!
Verification of the NIFTY-50 fetch-and-analyze script (`final.py`).

The script has two stages:
* `scrape_nifty50_data` : primes an HTTP session, fetches a JSON snapshot
  (with a gzip fallback parse), and writes one CSV row per constituent;
* `analyze_and_visualize` : reads the CSV back, coerces numeric columns,
  and computes ranked views (gainers/losers, below 52-week high,
  above 52-week low, 30-day leaders).

The embedding below models the external world (HTTP responses, parse
outcomes, file-write failures) as explicit inputs, and the file system as
an optional list of CSV records.  Numeric cell values are modelled as
rationals; a value that failed numeric coercion (pandas `NaN`) is `none`.
-/

namespace Nifty50

/-! ## Fetcher: data model -/

/-- The CSV header written by `scrape_nifty50_data` (`csv_headers` in the
source, lines 76-91): fourteen column names, with `lastUpdateTime` in
position 13 and `perChange30d` appended last. -/
def csv_headers : List String :=
  [ "symbol", "open", "dayHigh", "dayLow", "lastPrice", "previousClose",
    "change", "pChange", "totalTradedVolume", "totalTradedValue",
    "yearHigh", "yearLow", "lastUpdateTime", "perChange30d" ]

/-- One JSON object of the payload's row list: a finite key-value map
(association list).  Cell values are kept as strings; the fetcher never
interprets them numerically. -/
abbrev Stock := List (String × String)

/-- `stock.get(k)` : first value bound to key `k`, if any. -/
def stockGet (s : Stock) (k : String) : Option String :=
  s.lookup k

/-- The `row` dictionary built for one stock (source lines 98-113):
each of the fourteen schema keys bound to `stock.get(key, "")`. -/
def rowDict (s : Stock) : List (String × String) :=
  [ ("symbol", (stockGet s "symbol").getD ""),
    ("open", (stockGet s "open").getD ""),
    ("dayHigh", (stockGet s "dayHigh").getD ""),
    ("dayLow", (stockGet s "dayLow").getD ""),
    ("lastPrice", (stockGet s "lastPrice").getD ""),
    ("previousClose", (stockGet s "previousClose").getD ""),
    ("change", (stockGet s "change").getD ""),
    ("pChange", (stockGet s "pChange").getD ""),
    ("totalTradedVolume", (stockGet s "totalTradedVolume").getD ""),
    ("totalTradedValue", (stockGet s "totalTradedValue").getD ""),
    ("yearHigh", (stockGet s "yearHigh").getD ""),
    ("yearLow", (stockGet s "yearLow").getD ""),
    ("lastUpdateTime", (stockGet s "lastUpdateTime").getD ""),
    ("perChange30d", (stockGet s "perChange30d").getD "") ]

/-- `csv.DictWriter.writerow` with `fieldnames = csv_headers`: one record
holding, for each field name in order, the dictionary's value for it
(the writer's `restval` default, rendered as an empty cell, if absent). -/
def writerow (d : List (String × String)) : List String :=
  csv_headers.map (fun f => ((d.lookup f).getD ""))

/-- The record emitted for one stock object: `writerow` of its `rowDict`. -/
def projectStock (s : Stock) : List String :=
  writerow (rowDict s)

/-- The parsed JSON payload, reduced to the one field the fetcher reads:
the value bound to the top-level `"data"` key, when present. -/
structure Payload where
  dataField : Option (List Stock)

/-- `data.get("data", [])` (source line 70). -/
def getData (p : Payload) : List Stock :=
  p.dataField.getD []

/-! ## Fetcher: the external world and control flow -/

/-- A CSV file: its list of records (header record first). -/
abbrev CsvFile := List (List String)

/-- The body of the API response, seen through the two parse attempts:
`directJson` is the result of `response.json()` (`none` when it raises
`ValueError`); `gzipJson` is the result of the manual
`gzip.decompress` / `json.loads` fallback (`none` when that path raises —
its exceptions are not `requests.exceptions.RequestException`). -/
structure Body where
  directJson : Option Payload
  gzipJson : Option Payload

/-- How the guarded file write (source lines 93-114) turns out:
it succeeds, the `open` call itself fails, or an exception is raised
after `k` records have been written (the file was already truncated by
opening in mode `"w"`). -/
inductive WriteFail where
  | noFail : WriteFail
  | failOpen : WriteFail
  | failAfter (k : Nat) : WriteFail
deriving DecidableEq

/-- One run's external inputs.  `Except.error` on a request stands for a
raised `requests.exceptions.RequestException`; `Except.ok` carries the
HTTP status code (plus, for the API call, the body). -/
structure Env where
  homepage : Except Unit Nat
  api : Except Unit (Nat × Body)
  writeFail : WriteFail

/-- Diagnostics the fetcher prints on its failure and success paths. -/
inductive Diag where
  | homepageStatus (code : Nat) : Diag
  | homepageErr : Diag
  | apiStatus (code : Nat) : Diag
  | apiErr : Diag
  | noData : Diag
  | writeErr : Diag
  | saved : Diag
deriving DecidableEq

/-- Outcome of a fetcher call: the resulting file-system state (contents
of the target file, `none` when it does not exist), the diagnostics
printed, and whether an exception escaped the call. -/
structure ScrapeResult where
  fs : Option CsvFile
  diags : List Diag
  raised : Bool
deriving DecidableEq

/-- Effect of the guarded `with open(filename, "w") ... writerow` block on
the target file, given the prior contents and the records to write:
on success the file holds all records; when `open` fails the prior file
is untouched; when writing fails after `k` records the file holds just
those `k` (mode `"w"` truncated it first).  The surrounding
`except Exception` catches every write-stage exception. -/
def writeCsv (prior : Option CsvFile) (records : CsvFile) :
    WriteFail → Option CsvFile
  | .noFail => some records
  | .failOpen => prior
  | .failAfter k => some (records.take k)

/-- Source lines 69-117, the part after a payload has been parsed:
extract the row list, bail out when it is empty, otherwise write the
header plus one projected record per stock under the write guard. -/
def scrapeWrite (payload : Payload) (wf : WriteFail) (prior : Option CsvFile) :
    ScrapeResult :=
  let stock_data_list := getData payload
  if stock_data_list.isEmpty then ⟨prior, [.noData], false⟩
  else
    let records := csv_headers :: stock_data_list.map projectStock
    match wf with
    | .noFail => ⟨writeCsv prior records .noFail, [.saved], false⟩
    | .failOpen => ⟨writeCsv prior records .failOpen, [.writeErr], false⟩
    | .failAfter k => ⟨writeCsv prior records (.failAfter k), [.writeErr], false⟩

/-- The fetcher `scrape_nifty50_data`, as a function of the external
world `env` and the prior contents of the target file.  The two parse
attempts follow source lines 59-64; a failure of the fallback raises an
exception that the enclosing handler (which only catches
`requests.exceptions.RequestException`) does not intercept, so it
escapes the call (`raised := true`). -/
def scrape_nifty50_data (env : Env) (prior : Option CsvFile) : ScrapeResult :=
  match env.homepage with
  | .error _ => ⟨prior, [.homepageErr], false⟩
  | .ok s =>
    if s ≠ 200 then ⟨prior, [.homepageStatus s], false⟩
    else
      match env.api with
      | .error _ => ⟨prior, [.apiErr], false⟩
      | .ok (st, body) =>
        if st ≠ 200 then ⟨prior, [.apiStatus st], false⟩
        else
          match body.directJson with
          | some payload => scrapeWrite payload env.writeFail prior
          | none =>
            match body.gzipJson with
            | some payload => scrapeWrite payload env.writeFail prior
            | none => ⟨prior, [], true⟩

/-! ## Analyzer: data model -/

/-- One row of the data frame after `pd.to_numeric(·, errors="coerce")`
has been applied to the declared-numeric columns (source lines 124-129):
numeric cells are rationals, with `none` standing for a missing /
unparseable value (`NaN`). -/
structure Row where
  symbol : String
  «open» : Option ℚ
  dayHigh : Option ℚ
  dayLow : Option ℚ
  lastPrice : Option ℚ
  previousClose : Option ℚ
  change : Option ℚ
  pChange : Option ℚ
  totalTradedVolume : Option ℚ
  totalTradedValue : Option ℚ
  yearHigh : Option ℚ
  yearLow : Option ℚ
  perChange30d : Option ℚ
  lastUpdateTime : String
deriving DecidableEq

/-- `sort_values(ascending=False)` comparison on one nullable column:
larger values first, missing values (`NaN`) last. -/
def naLastDesc (a b : Option ℚ) : Prop :=
  match a, b with
  | some x, some y => y ≤ x
  | some _, none => True
  | none, some _ => False
  | none, none => True

/-- `sort_values(ascending=True)` comparison on one nullable column:
smaller values first, missing values (`NaN`) last. -/
def naLastAsc (a b : Option ℚ) : Prop :=
  match a, b with
  | some x, some y => x ≤ y
  | some _, none => True
  | none, some _ => False
  | none, none => True

instance : DecidableRel naLastDesc := fun a b =>
  match a, b with
  | some x, some y => inferInstanceAs (Decidable (y ≤ x))
  | some _, none => .isTrue trivial
  | none, some _ => .isFalse (fun h => h)
  | none, none => .isTrue trivial

instance : DecidableRel naLastAsc := fun a b =>
  match a, b with
  | some x, some y => inferInstanceAs (Decidable (x ≤ y))
  | some _, none => .isTrue trivial
  | none, some _ => .isFalse (fun h => h)
  | none, none => .isTrue trivial

instance : DecidableRel (fun (r s : Row) => naLastDesc r.pChange s.pChange) :=
  fun r s => inferInstanceAs (Decidable (naLastDesc r.pChange s.pChange))

instance : DecidableRel (fun (r s : Row) => naLastAsc r.pChange s.pChange) :=
  fun r s => inferInstanceAs (Decidable (naLastAsc r.pChange s.pChange))

instance : DecidableRel (fun (r s : Row) => naLastDesc r.perChange30d s.perChange30d) :=
  fun r s => inferInstanceAs (Decidable (naLastDesc r.perChange30d s.perChange30d))

instance : DecidableRel (fun (p q : Row × ℚ) => q.2 ≤ p.2) :=
  fun p q => inferInstanceAs (Decidable (q.2 ≤ p.2))

/-- `df.sort_values(by="pChange", ascending=False).head(5)`. -/
def top5_gainers (df : List Row) : List Row :=
  (df.insertionSort (fun r s => naLastDesc r.pChange s.pChange)).take 5

/-- `df.sort_values(by="pChange", ascending=True).head(5)`. -/
def top5_losers (df : List Row) : List Row :=
  (df.insertionSort (fun r s => naLastAsc r.pChange s.pChange)).take 5

/-- The boolean mask `df["lastPrice"] <= 0.70 * df["yearHigh"]`
(source line 142); a comparison involving `NaN` is false. -/
def belowHighCond (r : Row) : Bool :=
  match r.lastPrice, r.yearHigh with
  | some l, some y => decide (l ≤ 0.70 * y)
  | _, _ => false

/-- The added column
`(df["yearHigh"] - df["lastPrice"]) / df["yearHigh"] * 100`
(source line 144), evaluated on rows where both cells are present. -/
def pctBelowHigh (r : Row) : ℚ :=
  ((r.yearHigh.getD 0 - r.lastPrice.getD 0) / r.yearHigh.getD 0) * 100

/-- `df_below_high` with its `pctBelowHigh` column (source lines 142-144):
the rows passing the mask, each paired with the metric. -/
def df_below_high (df : List Row) : List (Row × ℚ) :=
  (df.filter belowHighCond).map (fun r => (r, pctBelowHigh r))

/-- `stocks_30_below_high` (source line 145): the filtered rows sorted by
`pctBelowHigh` descending, first five. -/
def stocks_30_below_high (df : List Row) : List (Row × ℚ) :=
  ((df_below_high df).insertionSort (fun p q => q.2 ≤ p.2)).take 5

/-- The boolean mask `df["lastPrice"] >= 1.20 * df["yearLow"]`
(source line 151); a comparison involving `NaN` is false. -/
def aboveLowCond (r : Row) : Bool :=
  match r.lastPrice, r.yearLow with
  | some l, some y => decide (1.20 * y ≤ l)
  | _, _ => false

/-- The added column
`(df["lastPrice"] - df["yearLow"]) / df["yearLow"] * 100`
(source line 153). -/
def pctAboveLow (r : Row) : ℚ :=
  ((r.lastPrice.getD 0 - r.yearLow.getD 0) / r.yearLow.getD 0) * 100

/-- `df_above_low` with its `pctAboveLow` column (source lines 151-153). -/
def df_above_low (df : List Row) : List (Row × ℚ) :=
  (df.filter aboveLowCond).map (fun r => (r, pctAboveLow r))

/-- `stocks_20_above_low` (source line 154): the filtered rows sorted by
`pctAboveLow` descending, first five. -/
def stocks_20_above_low (df : List Row) : List (Row × ℚ) :=
  ((df_above_low df).insertionSort (fun p q => q.2 ≤ p.2)).take 5

/-- `df.sort_values(by="perChange30d", ascending=False).head(5)`
(source line 159). -/
def top30_returns (df : List Row) : List Row :=
  (df.insertionSort (fun r s => naLastDesc r.perChange30d s.perChange30d)).take 5

/-! ## Order properties of the sorting comparisons -/

theorem naLastDesc_total (a b : Option ℚ) : naLastDesc a b ∨ naLastDesc b a := by
  cases a <;> cases b <;> simp only [naLastDesc] <;> first | exact le_total _ _ | simp

theorem naLastDesc_trans {a b c : Option ℚ}
    (h1 : naLastDesc a b) (h2 : naLastDesc b c) : naLastDesc a c := by
  cases a <;> cases b <;> cases c <;> simp_all only [naLastDesc] <;>
    try exact le_trans h2 h1

theorem naLastAsc_total (a b : Option ℚ) : naLastAsc a b ∨ naLastAsc b a := by
  cases a <;> cases b <;> simp only [naLastAsc] <;> first | exact le_total _ _ | simp

theorem naLastAsc_trans {a b c : Option ℚ}
    (h1 : naLastAsc a b) (h2 : naLastAsc b c) : naLastAsc a c := by
  cases a <;> cases b <;> cases c <;> simp_all only [naLastAsc] <;>
    try exact le_trans h1 h2

instance : IsTotal Row (fun r s => naLastDesc r.pChange s.pChange) :=
  ⟨fun a b => naLastDesc_total a.pChange b.pChange⟩

instance : IsTrans Row (fun r s => naLastDesc r.pChange s.pChange) :=
  ⟨fun _ _ _ h1 h2 => naLastDesc_trans h1 h2⟩

instance : IsTotal Row (fun r s => naLastAsc r.pChange s.pChange) :=
  ⟨fun a b => naLastAsc_total a.pChange b.pChange⟩

instance : IsTrans Row (fun r s => naLastAsc r.pChange s.pChange) :=
  ⟨fun _ _ _ h1 h2 => naLastAsc_trans h1 h2⟩

instance : IsTotal Row (fun r s => naLastDesc r.perChange30d s.perChange30d) :=
  ⟨fun a b => naLastDesc_total a.perChange30d b.perChange30d⟩

instance : IsTrans Row (fun r s => naLastDesc r.perChange30d s.perChange30d) :=
  ⟨fun _ _ _ h1 h2 => naLastDesc_trans h1 h2⟩

instance : IsTotal (Row × ℚ) (fun p q => q.2 ≤ p.2) :=
  ⟨fun a b => le_total b.2 a.2⟩

instance : IsTrans (Row × ℚ) (fun p q => q.2 ≤ p.2) :=
  ⟨fun _ _ _ h1 h2 => le_trans h2 h1⟩

/-! ## Concrete rows for the testable properties -/

/-- A row with every numeric cell missing. -/
def blankRow : Row :=
  ⟨"", none, none, none, none, none, none, none, none, none, none, none, none, ""⟩

/-- A row carrying only a symbol and a daily percentage change. -/
def rowP (sym : String) (pc : ℚ) : Row :=
  { blankRow with symbol := sym, pChange := some pc }

/-- The spec's five-row example: pChange values `[5, -3, 10, -1, 0]`. -/
def df4 : List Row :=
  [rowP "A" 5, rowP "B" (-3), rowP "C" 10, rowP "D" (-1), rowP "E" 0]

/-- A row with lastPrice 69 against a 52-week high of 100. -/
def row69 : Row := { blankRow with symbol := "L69", lastPrice := some 69, yearHigh := some 100 }

/-- A row with lastPrice 71 against a 52-week high of 100. -/
def row71 : Row := { blankRow with symbol := "L71", lastPrice := some 71, yearHigh := some 100 }

/-- A row with lastPrice 121 against a 52-week low of 100. -/
def row121 : Row := { blankRow with symbol := "L121", lastPrice := some 121, yearLow := some 100 }

/-- A row with lastPrice 119 against a 52-week low of 100. -/
def row119 : Row := { blankRow with symbol := "L119", lastPrice := some 119, yearLow := some 100 }

/-! ## Fetcher: run classification and helper lemmas -/

/-- A fully successful run: homepage primed with status 200, API answered
with status 200 and a body one of whose two parse attempts yields
`payload` (the direct one, or the gzip fallback after the direct one
failed), the payload's row list is non-empty, and the file write ran to
completion. -/
def FetchSuccess (env : Env) (payload : Payload) : Prop :=
  env.homepage = .ok 200 ∧
  (∃ body, env.api = .ok (200, body) ∧
    (body.directJson = some payload ∨
      (body.directJson = none ∧ body.gzipJson = some payload))) ∧
  getData payload ≠ [] ∧
  env.writeFail = .noFail

/-- A run that fails before the target file is opened: priming failure,
API failure, unparsable body, or an empty row list. -/
def PreWriteFailure (env : Env) : Prop :=
  env.homepage = .error () ∨
  (∃ s, env.homepage = .ok s ∧ s ≠ 200) ∨
  env.api = .error () ∨
  (∃ st body, env.api = .ok (st, body) ∧ st ≠ 200) ∨
  (∃ body, env.api = .ok (200, body) ∧
    body.directJson = none ∧ body.gzipJson = none) ∨
  (∃ body payload, env.api = .ok (200, body) ∧
    (body.directJson = some payload ∨
      (body.directJson = none ∧ body.gzipJson = some payload)) ∧
    getData payload = [])

theorem scrape_success {env : Env} {payload : Payload} (prior : Option CsvFile)
    (h : FetchSuccess env payload) :
    scrape_nifty50_data env prior =
      ⟨some (csv_headers :: (getData payload).map projectStock), [.saved], false⟩ := by
  obtain ⟨h1, ⟨body, h2, hparse⟩, hne, hwf⟩ := h
  have hempty : (getData payload).isEmpty = false := by
    cases hd : getData payload with
    | nil => exact absurd hd hne
    | cons a l => rfl
  rcases hparse with hdir | ⟨hdir, hgz⟩
  · simp [scrape_nifty50_data, h1, h2, hdir, hwf, scrapeWrite, hempty, writeCsv]
  · simp [scrape_nifty50_data, h1, h2, hdir, hgz, hwf, scrapeWrite, hempty, writeCsv]

theorem scrapeWrite_fs_failOpen (payload : Payload) (prior : Option CsvFile) :
    (scrapeWrite payload .failOpen prior).fs = prior := by
  simp only [scrapeWrite]
  split
  · rfl
  · rfl

theorem scrape_pre_write_failure {env : Env} (prior : Option CsvFile)
    (h : PreWriteFailure env) :
    (scrape_nifty50_data env prior).fs = prior := by
  unfold scrape_nifty50_data
  split
  · rfl
  · split
    · rfl
    · split
      · rfl
      · split
        · rfl
        · split
          · rcases h with h' | ⟨s', hs', hne⟩ | h' | ⟨st', body', hab, hne⟩ |
              ⟨body', hab, hd, hg⟩ | ⟨body', payload', hab, hparse, hemp⟩ <;>
              simp_all [scrapeWrite]
          · split
            · rcases h with h' | ⟨s', hs', hne⟩ | h' | ⟨st', body', hab, hne⟩ |
                ⟨body', hab, hd, hg⟩ | ⟨body', payload', hab, hparse, hemp⟩ <;>
                simp_all [scrapeWrite]
            · rfl

theorem scrape_fs_failOpen (env : Env) (prior : Option CsvFile)
    (h : env.writeFail = .failOpen) :
    (scrape_nifty50_data env prior).fs = prior := by
  unfold scrape_nifty50_data
  split
  · rfl
  · split
    · rfl
    · split
      · rfl
      · split
        · rfl
        · split
          · rw [h]; exact scrapeWrite_fs_failOpen _ _
          · split
            · rw [h]; exact scrapeWrite_fs_failOpen _ _
            · rfl

/-- Projection characterisation: the record written for a stock is the
fourteen header fields looked up in the object, a missing field becoming
an empty cell. -/
theorem projectStock_eq_map (s : Stock) :
    projectStock s = csv_headers.map (fun f => (stockGet s f).getD "") := by
  rfl

/-! ## Analyzer: view membership helpers -/

theorem belowHighCond_iff {r : Row} :
    belowHighCond r = true ↔
      ∃ l y, r.lastPrice = some l ∧ r.yearHigh = some y ∧ l ≤ 0.70 * y := by
  unfold belowHighCond
  cases hl : r.lastPrice <;> cases hy : r.yearHigh <;> simp

theorem aboveLowCond_iff {r : Row} :
    aboveLowCond r = true ↔
      ∃ l y, r.lastPrice = some l ∧ r.yearLow = some y ∧ 1.20 * y ≤ l := by
  unfold aboveLowCond
  cases hl : r.lastPrice <;> cases hy : r.yearLow <;> simp

theorem mem_df_below_high {df : List Row} {r : Row} {m : ℚ} :
    (r, m) ∈ df_below_high df ↔
      r ∈ df ∧ belowHighCond r = true ∧ m = pctBelowHigh r := by
  unfold df_below_high
  simp only [List.mem_map, List.mem_filter, Prod.mk.injEq]
  constructor
  · rintro ⟨a, ⟨ha, hc⟩, rfl, rfl⟩
    exact ⟨ha, hc, rfl⟩
  · rintro ⟨ha, hc, rfl⟩
    exact ⟨r, ⟨ha, hc⟩, rfl, rfl⟩

theorem mem_df_above_low {df : List Row} {r : Row} {m : ℚ} :
    (r, m) ∈ df_above_low df ↔
      r ∈ df ∧ aboveLowCond r = true ∧ m = pctAboveLow r := by
  unfold df_above_low
  simp only [List.mem_map, List.mem_filter, Prod.mk.injEq]
  constructor
  · rintro ⟨a, ⟨ha, hc⟩, rfl, rfl⟩
    exact ⟨ha, hc, rfl⟩
  · rintro ⟨ha, hc, rfl⟩
    exact ⟨r, ⟨ha, hc⟩, rfl, rfl⟩

theorem mem_stocks_30_below_high {df : List Row} {p : Row × ℚ}
    (h : p ∈ stocks_30_below_high df) :
    p.1 ∈ df ∧ belowHighCond p.1 = true ∧ p.2 = pctBelowHigh p.1 := by
  unfold stocks_30_below_high at h
  have h2 := List.mem_of_mem_take h
  rw [List.mem_insertionSort] at h2
  obtain ⟨r, m⟩ := p
  exact mem_df_below_high.1 h2

theorem mem_stocks_20_above_low {df : List Row} {p : Row × ℚ}
    (h : p ∈ stocks_20_above_low df) :
    p.1 ∈ df ∧ aboveLowCond p.1 = true ∧ p.2 = pctAboveLow p.1 := by
  unfold stocks_20_above_low at h
  have h2 := List.mem_of_mem_take h
  rw [List.mem_insertionSort] at h2
  obtain ⟨r, m⟩ := p
  exact mem_df_above_low.1 h2

/-! ## Concrete fetcher inputs -/

/-- A stock object that supplies only two of the schema fields. -/
def stockT : Stock := [("symbol", "TCS"), ("lastPrice", "3500")]

/-- A payload whose `"data"` list holds the one stock. -/
def payloadT : Payload := ⟨some [stockT]⟩

/-- A body whose direct JSON parse succeeds. -/
def bodyT : Body := ⟨some payloadT, none⟩

/-- An environment in which everything succeeds. -/
def envOk : Env := ⟨.ok 200, .ok (200, bodyT), .noFail⟩

/-- An environment that fails while writing, after the header record. -/
def envWriteFail : Env := ⟨.ok 200, .ok (200, bodyT), .failAfter 1⟩

/-- An environment in which both parse attempts fail. -/
def envParseFail : Env := ⟨.ok 200, .ok (200, ⟨none, none⟩), .noFail⟩

/-- An environment in which the priming request gets HTTP 403. -/
def envPrime403 : Env := ⟨.ok 403, .ok (200, bodyT), .noFail⟩

/-- A run in which everything succeeds, built from `envOk`'s pieces. -/
theorem fetchSuccess_envOk : FetchSuccess envOk payloadT :=
  ⟨rfl, ⟨bodyT, rfl, Or.inl rfl⟩, by simp [getData, payloadT], rfl⟩

/-- Concrete evaluation of the below-high pipeline on the spec's two
boundary rows. -/
theorem stocks_30_below_high_boundary :
    stocks_30_below_high [row69, row71] = [(row69, 31)] := by
  norm_num [stocks_30_below_high, df_below_high, List.filter, belowHighCond, row69, row71,
    blankRow, pctBelowHigh, List.insertionSort, List.orderedInsert]

/-- Concrete evaluation of the above-low pipeline on the spec's two
boundary rows. -/
theorem stocks_20_above_low_boundary :
    stocks_20_above_low [row121, row119] = [(row121, 21)] := by
  norm_num [stocks_20_above_low, df_above_low, List.filter, aboveLowCond, row121, row119,
    blankRow, pctAboveLow, List.insertionSort, List.orderedInsert]

/-! ## The claims -/

/-- The column order as the specification's data-model section lists it,
written here from the spec's words for comparison with the source's
`csv_headers`: `perChange30d` thirteenth and `lastUpdateTime` last. -/
def specListedColumns : List String :=
  [ "symbol", "open", "dayHigh", "dayLow", "lastPrice", "previousClose",
    "change", "pChange", "totalTradedVolume", "totalTradedValue",
    "yearHigh", "yearLow", "perChange30d", "lastUpdateTime" ]

/-- C1, counterexample: on a concrete fully successful run the persisted
header record is `csv_headers`, whose thirteenth and fourteenth columns
are `lastUpdateTime` then `perChange30d` — not the order the claim lists
(`perChange30d` then `lastUpdateTime`).  As an unordered set the fourteen
column names do agree (the two lists are permutations). -/
theorem c1_column_order_counterexample :
    (scrape_nifty50_data envOk none).fs = some [csv_headers, projectStock stockT] ∧
    csv_headers.get? 12 = some "lastUpdateTime" ∧
    csv_headers.get? 13 = some "perChange30d" ∧
    specListedColumns.get? 12 = some "perChange30d" ∧
    specListedColumns.get? 13 = some "lastUpdateTime" ∧
    csv_headers ≠ specListedColumns ∧
    csv_headers.Perm specListedColumns := by
  refine ⟨rfl, rfl, rfl, rfl, rfl, by decide, ?_⟩
  exact List.Perm.append_left
    [ "symbol", "open", "dayHigh", "dayLow", "lastPrice", "previousClose",
      "change", "pChange", "totalTradedVolume", "totalTradedValue",
      "yearHigh", "yearLow" ]
    (List.Perm.swap "perChange30d" "lastUpdateTime" [])

/-- C1 (amended): the flat file written by the fetcher has exactly the
fourteen named columns for every successful run and regardless of which
fields the source supplied, in the fixed order of the source's
`csv_headers` — ending `..., yearLow, lastUpdateTime, perChange30d`
(the claim's last two columns, swapped); every data record likewise has
exactly fourteen cells. -/
theorem c1_schema_fixed (env : Env) (payload : Payload) (prior : Option CsvFile)
    (h : FetchSuccess env payload) :
    ∃ rows, (scrape_nifty50_data env prior).fs = some (csv_headers :: rows) ∧
      csv_headers.length = 14 ∧
      csv_headers.get? 12 = some "lastUpdateTime" ∧
      csv_headers.get? 13 = some "perChange30d" ∧
      ∀ rec ∈ rows, rec.length = 14 := by
  refine ⟨(getData payload).map projectStock, ?_, rfl, rfl, rfl, ?_⟩
  · rw [scrape_success prior h]
  · intro rec hrec
    obtain ⟨s, -, rfl⟩ := List.mem_map.1 hrec
    rw [projectStock_eq_map, List.length_map]
    rfl

/-- Witness for C1: the hypotheses of `c1_schema_fixed` hold of the
concrete successful environment `envOk`. -/
theorem c1_schema_fixed_witness :
    FetchSuccess envOk payloadT ∧
    ∃ rows, (scrape_nifty50_data envOk none).fs = some (csv_headers :: rows) ∧
      csv_headers.length = 14 ∧
      csv_headers.get? 12 = some "lastUpdateTime" ∧
      csv_headers.get? 13 = some "perChange30d" ∧
      ∀ rec ∈ rows, rec.length = 14 :=
  ⟨fetchSuccess_envOk, c1_schema_fixed envOk payloadT none fetchSuccess_envOk⟩

/-- C2, counterexample: with a write failure striking after the header
record, the run fails (it prints the write diagnostic, not the success
message), yet the prior file has been replaced by a partially written
one — the prior contents are not left untouched. -/
theorem c2_counterexample :
    scrape_nifty50_data envWriteFail (some [["OLD"]]) =
      ⟨some [csv_headers], [.writeErr], false⟩ ∧
    (some [csv_headers] : Option CsvFile) ≠ some [["OLD"]] ∧
    [csv_headers] ≠ [csv_headers, projectStock stockT] := by
  exact ⟨rfl, by decide, by decide⟩

/-- C2 (amended): on any failure before the target file is opened the
prior file is left untouched, and likewise when opening it fails; a
fully successful run overwrites it with the whole snapshot; but the file
is opened in truncating write mode before success is known, so a failure
after `k` records leaves a truncated, partially written file. -/
theorem c2_file_effects :
    (∀ env prior, PreWriteFailure env →
      (scrape_nifty50_data env prior).fs = prior) ∧
    (∀ env prior, env.writeFail = .failOpen →
      (scrape_nifty50_data env prior).fs = prior) ∧
    (∀ env payload prior, FetchSuccess env payload →
      (scrape_nifty50_data env prior).fs =
        some (csv_headers :: (getData payload).map projectStock)) ∧
    (∀ env body payload prior k, env.homepage = .ok 200 →
      env.api = .ok (200, body) → body.directJson = some payload →
      getData payload ≠ [] → env.writeFail = .failAfter k →
      (scrape_nifty50_data env prior).fs =
        some ((csv_headers :: (getData payload).map projectStock).take k)) := by
  refine ⟨fun env prior h => scrape_pre_write_failure prior h,
    fun env prior h => scrape_fs_failOpen env prior h,
    fun env payload prior h => by rw [scrape_success prior h],
    fun env body payload prior k h1 h2 hdir hne hwf => ?_⟩
  have hempty : (getData payload).isEmpty = false := by
    cases hd : getData payload with
    | nil => exact absurd hd hne
    | cons a l => rfl
  simp [scrape_nifty50_data, h1, h2, hdir, hwf, scrapeWrite, hempty, writeCsv]

/-- Witness for C2: the pre-write-failure clause of `c2_file_effects`
applied to the concrete non-200 priming environment. -/
theorem c2_file_effects_witness :
    PreWriteFailure envPrime403 ∧ (scrape_nifty50_data envPrime403 none).fs = none :=
  ⟨Or.inr (Or.inl ⟨403, rfl, by decide⟩),
    c2_file_effects.1 envPrime403 none (Or.inr (Or.inl ⟨403, rfl, by decide⟩))⟩

/-- C3, counterexample: when both parse attempts fail, the exception
escapes the fetcher call (`raised = true`), no diagnostic is printed for
it, and the function does not return early in the guarded sense the
claim states. -/
theorem c3_counterexample :
    (scrape_nifty50_data envParseFail (some [["OLD"]])).raised = true ∧
    (scrape_nifty50_data envParseFail (some [["OLD"]])).diags = [] ∧
    (scrape_nifty50_data envParseFail (some [["OLD"]])).fs = some [["OLD"]] :=
  ⟨rfl, rfl, rfl⟩

/-- C3 (amended): the fetcher first uses the direct JSON parse; if that
fails it uses the gzip-decompress-then-parse fallback; but if both fail,
the resulting exception propagates out of the fetcher call uncaught (the
enclosing handler only catches network-request errors), with no
diagnostic printed — the prior file is still left untouched. -/
theorem c3_parse_fallback :
    (∀ env body payload prior, env.homepage = .ok 200 →
      env.api = .ok (200, body) → body.directJson = some payload →
      scrape_nifty50_data env prior = scrapeWrite payload env.writeFail prior) ∧
    (∀ env body payload prior, env.homepage = .ok 200 →
      env.api = .ok (200, body) → body.directJson = none →
      body.gzipJson = some payload →
      scrape_nifty50_data env prior = scrapeWrite payload env.writeFail prior) ∧
    (∀ env body prior, env.homepage = .ok 200 →
      env.api = .ok (200, body) → body.directJson = none →
      body.gzipJson = none →
      scrape_nifty50_data env prior = ⟨prior, [], true⟩) := by
  refine ⟨fun env body payload prior h1 h2 hdir => ?_,
    fun env body payload prior h1 h2 hdir hgz => ?_,
    fun env body prior h1 h2 hdir hgz => ?_⟩ <;>
    simp [scrape_nifty50_data, h1, h2, hdir, *]

/-- Witness for C3: the both-parses-fail clause of `c3_parse_fallback`
applied to the concrete unparsable-body environment. -/
theorem c3_parse_fallback_witness :
    scrape_nifty50_data envParseFail none = ⟨none, [], true⟩ :=
  c3_parse_fallback.2.2 envParseFail ⟨none, none⟩ none rfl rfl rfl rfl

/-- C4: the top-5 gainers are the first five rows of a permutation of the
input sorted descending by `pChange` (missing values last), the top-5
losers the first five sorted ascending; on the spec's example with
`pChange` values `[5, -3, 10, -1, 0]` the gainers' values come out
`[10, 5, 0, -1, -3]` and the losers' `[-3, -1, 0, 5, 10]`. -/
theorem c4_gainers_losers :
    (∀ df, ∃ sorted, sorted.Perm df ∧
      List.Sorted (fun r s => naLastDesc r.pChange s.pChange) sorted ∧
      top5_gainers df = sorted.take 5) ∧
    (∀ df, ∃ sorted, sorted.Perm df ∧
      List.Sorted (fun r s => naLastAsc r.pChange s.pChange) sorted ∧
      top5_losers df = sorted.take 5) ∧
    (top5_gainers df4).map (fun r => r.pChange) =
      [some 10, some 5, some 0, some (-1), some (-3)] ∧
    (top5_losers df4).map (fun r => r.pChange) =
      [some (-3), some (-1), some 0, some 5, some 10] :=
  ⟨fun df => ⟨_, List.perm_insertionSort _ df, List.sorted_insertionSort _ df, rfl⟩,
    fun df => ⟨_, List.perm_insertionSort _ df, List.sorted_insertionSort _ df, rfl⟩,
    by decide, by decide⟩

/-- C5: the below-52-week-high view draws exactly from the rows with
`lastPrice ≤ 0.70 × yearHigh` (both values present), the metric is
`(yearHigh − lastPrice) / yearHigh × 100`, the view is ranked descending
by that metric and truncated to five rows; at the boundary, a row with
lastPrice 69 against yearHigh 100 qualifies (metric 31) while lastPrice
71 does not. -/
theorem c5_below_high_view :
    (∀ df (r : Row) (m : ℚ), ((r, m) ∈ df_below_high df ↔
      r ∈ df ∧ belowHighCond r = true ∧ m = pctBelowHigh r)) ∧
    (∀ r : Row, belowHighCond r = true ↔
      ∃ l y, r.lastPrice = some l ∧ r.yearHigh = some y ∧ l ≤ 0.70 * y) ∧
    (∀ df, ∃ sorted, sorted.Perm (df_below_high df) ∧
      List.Sorted (fun (p q : Row × ℚ) => q.2 ≤ p.2) sorted ∧
      stocks_30_below_high df = sorted.take 5) ∧
    (∀ df, (stocks_30_below_high df).length ≤ 5) ∧
    belowHighCond row69 = true ∧
    belowHighCond row71 = false ∧
    pctBelowHigh row69 = 31 ∧
    stocks_30_below_high [row69, row71] = [(row69, 31)] := by
  refine ⟨fun df r m => mem_df_below_high,
    fun r => belowHighCond_iff,
    fun df => ⟨_, List.perm_insertionSort _ _, List.sorted_insertionSort _ _, rfl⟩,
    fun df => List.length_take_le 5 _,
    by norm_num [belowHighCond, row69, blankRow],
    by norm_num [belowHighCond, row71, blankRow],
    by norm_num [pctBelowHigh, row69, blankRow],
    stocks_30_below_high_boundary⟩

/-- C6: the above-52-week-low view draws exactly from the rows with
`lastPrice ≥ 1.20 × yearLow` (both values present), the metric is
`(lastPrice − yearLow) / yearLow × 100`, the view is ranked descending by
that metric and truncated to five rows; at the boundary, a row with
lastPrice 121 against yearLow 100 qualifies (metric 21) while lastPrice
119 does not. -/
theorem c6_above_low_view :
    (∀ df (r : Row) (m : ℚ), ((r, m) ∈ df_above_low df ↔
      r ∈ df ∧ aboveLowCond r = true ∧ m = pctAboveLow r)) ∧
    (∀ r : Row, aboveLowCond r = true ↔
      ∃ l y, r.lastPrice = some l ∧ r.yearLow = some y ∧ 1.20 * y ≤ l) ∧
    (∀ df, ∃ sorted, sorted.Perm (df_above_low df) ∧
      List.Sorted (fun (p q : Row × ℚ) => q.2 ≤ p.2) sorted ∧
      stocks_20_above_low df = sorted.take 5) ∧
    (∀ df, (stocks_20_above_low df).length ≤ 5) ∧
    aboveLowCond row121 = true ∧
    aboveLowCond row119 = false ∧
    pctAboveLow row121 = 21 ∧
    stocks_20_above_low [row121, row119] = [(row121, 21)] := by
  refine ⟨fun df r m => mem_df_above_low,
    fun r => aboveLowCond_iff,
    fun df => ⟨_, List.perm_insertionSort _ _, List.sorted_insertionSort _ _, rfl⟩,
    fun df => List.length_take_le 5 _,
    by norm_num [aboveLowCond, row121, blankRow],
    by norm_num [aboveLowCond, row119, blankRow],
    by norm_num [pctAboveLow, row121, blankRow],
    stocks_20_above_low_boundary⟩

/-- C7: for every parsed payload with a non-empty row list, the file the
fetcher writes is the header record followed by exactly one record per
stock object, each record projecting the fourteen schema fields in
header order with a missing field rendered as an empty cell. -/
theorem c7_rows_projection (env : Env) (payload : Payload) (prior : Option CsvFile)
    (h : FetchSuccess env payload) :
    (scrape_nifty50_data env prior).fs =
      some (csv_headers :: (getData payload).map projectStock) ∧
    ((getData payload).map projectStock).length = (getData payload).length ∧
    ∀ s : Stock, projectStock s = csv_headers.map (fun f => (stockGet s f).getD "") :=
  ⟨by rw [scrape_success prior h], List.length_map _ _, projectStock_eq_map⟩

/-- Witness for C7: `c7_rows_projection` at the concrete successful
environment, whose one stock supplies only two of the fourteen fields. -/
theorem c7_rows_projection_witness :
    FetchSuccess envOk payloadT ∧
    ((scrape_nifty50_data envOk none).fs =
      some (csv_headers :: (getData payloadT).map projectStock) ∧
    ((getData payloadT).map projectStock).length = (getData payloadT).length ∧
    ∀ s : Stock, projectStock s = csv_headers.map (fun f => (stockGet s f).getD "")) :=
  ⟨fetchSuccess_envOk, c7_rows_projection envOk payloadT none fetchSuccess_envOk⟩

/-- C8: if the priming request raises a network error or returns a
non-200 status, the fetcher prints a diagnostic, leaves the file system
unchanged (in particular creates no output file), and no exception
escapes the call. -/
theorem c8_priming_failure (env : Env) (prior : Option CsvFile)
    (h : env.homepage = .error () ∨ ∃ s, env.homepage = .ok s ∧ s ≠ 200) :
    (scrape_nifty50_data env prior).fs = prior ∧
    (scrape_nifty50_data env prior).raised = false ∧
    (scrape_nifty50_data env prior).diags ≠ [] := by
  rcases h with h | ⟨s, hs, hne⟩
  · simp [scrape_nifty50_data, h]
  · simp [scrape_nifty50_data, hs, hne]

/-- Witness for C8: `c8_priming_failure` at the concrete HTTP-403 priming
environment with no pre-existing file. -/
theorem c8_priming_failure_witness :
    (envPrime403.homepage = .error () ∨
      ∃ s, envPrime403.homepage = .ok s ∧ s ≠ 200) ∧
    ((scrape_nifty50_data envPrime403 none).fs = none ∧
    (scrape_nifty50_data envPrime403 none).raised = false ∧
    (scrape_nifty50_data envPrime403 none).diags ≠ []) :=
  ⟨Or.inr ⟨403, rfl, by decide⟩,
    c8_priming_failure envPrime403 none (Or.inr ⟨403, rfl, by decide⟩)⟩

/-- C9: a row whose `lastPrice` or `yearHigh` is missing (numeric
coercion failed) never enters the below-high view, and a row whose
`lastPrice` or `yearLow` is missing never enters the above-low view:
the filter comparisons are false on a missing value. -/
theorem c9_missing_values_excluded :
    ∀ df (r : Row),
      ((r.lastPrice = none ∨ r.yearHigh = none) →
        ∀ m, (r, m) ∉ stocks_30_below_high df) ∧
      ((r.lastPrice = none ∨ r.yearLow = none) →
        ∀ m, (r, m) ∉ stocks_20_above_low df) := by
  intro df r
  constructor
  · rintro h m hmem
    obtain ⟨-, hc, -⟩ := mem_stocks_30_below_high hmem
    obtain ⟨l, y, hl, hy, -⟩ := belowHighCond_iff.1 hc
    rcases h with h | h <;> simp_all
  · rintro h m hmem
    obtain ⟨-, hc, -⟩ := mem_stocks_20_above_low hmem
    obtain ⟨l, y, hl, hy, -⟩ := aboveLowCond_iff.1 hc
    rcases h with h | h <;> simp_all

/-- Witness for C9: the all-missing row is in neither view of a one-row
data frame that contains it. -/
theorem c9_missing_values_excluded_witness :
    blankRow.lastPrice = none ∧
    (blankRow, (0 : ℚ)) ∉ stocks_30_below_high [blankRow] ∧
    (blankRow, (0 : ℚ)) ∉ stocks_20_above_low [blankRow] :=
  ⟨rfl,
    (c9_missing_values_excluded [blankRow] blankRow).1 (Or.inl rfl) 0,
    (c9_missing_values_excluded [blankRow] blankRow).2 (Or.inl rfl) 0⟩

/-- C10: a row selected into the below-high view whose `yearHigh` is
positive has `pctBelowHigh ≥ 30`, and a row selected into the above-low
view whose `yearLow` is positive has `pctAboveLow ≥ 20`: the filter
thresholds 0.70 and 1.20 imply the percentage bounds. -/
theorem c10_metric_lower_bounds :
    ∀ df (p : Row × ℚ),
      (p ∈ stocks_30_below_high df →
        ∀ y, p.1.yearHigh = some y → 0 < y → 30 ≤ p.2) ∧
      (p ∈ stocks_20_above_low df →
        ∀ y, p.1.yearLow = some y → 0 < y → 20 ≤ p.2) := by
  intro df p
  constructor
  · intro hmem y hy hypos
    obtain ⟨-, hc, hm⟩ := mem_stocks_30_below_high hmem
    obtain ⟨l, y', hl, hy', hle⟩ := belowHighCond_iff.1 hc
    rw [hy] at hy'
    injection hy' with he
    subst he
    rw [hm]
    unfold pctBelowHigh
    rw [hl, hy]
    simp only [Option.getD_some]
    have hle' : l ≤ 7 / 10 * y := by
      have : (0.70 : ℚ) = 7 / 10 := by norm_num
      rw [this] at hle
      exact hle
    have h1 : (3 / 10 : ℚ) ≤ (y - l) / y := by
      rw [le_div_iff₀ hypos]
      linarith
    linarith [h1]
  · intro hmem y hy hypos
    obtain ⟨-, hc, hm⟩ := mem_stocks_20_above_low hmem
    obtain ⟨l, y', hl, hy', hle⟩ := aboveLowCond_iff.1 hc
    rw [hy] at hy'
    injection hy' with he
    subst he
    rw [hm]
    unfold pctAboveLow
    rw [hl, hy]
    simp only [Option.getD_some]
    have hle' : 12 / 10 * y ≤ l := by
      have : (1.20 : ℚ) = 12 / 10 := by norm_num
      rw [this] at hle
      exact hle
    have h1 : (2 / 10 : ℚ) ≤ (l - y) / y := by
      rw [le_div_iff₀ hypos]
      linarith
    linarith [h1]

/-- Witness for C10: the boundary rows realise the bounds — row 69/100 is
selected with metric 31 ≥ 30, row 121/100 with metric 21 ≥ 20. -/
theorem c10_metric_lower_bounds_witness :
    (row69, (31 : ℚ)) ∈ stocks_30_below_high [row69, row71] ∧
    row69.yearHigh = some 100 ∧
    (30 : ℚ) ≤ 31 ∧
    (row121, (21 : ℚ)) ∈ stocks_20_above_low [row121, row119] ∧
    row121.yearLow = some 100 ∧
    (20 : ℚ) ≤ 21 := by
  have hmem1 : (row69, (31 : ℚ)) ∈ stocks_30_below_high [row69, row71] := by
    rw [stocks_30_below_high_boundary]
    exact List.mem_singleton.2 rfl
  have hmem2 : (row121, (21 : ℚ)) ∈ stocks_20_above_low [row121, row119] := by
    rw [stocks_20_above_low_boundary]
    exact List.mem_singleton.2 rfl
  refine ⟨hmem1, rfl, ?_, hmem2, rfl, ?_⟩
  · exact (c10_metric_lower_bounds [row69, row71] (row69, 31)).1 hmem1 100 rfl (by norm_num)
  · exact (c10_metric_lower_bounds [row121, row119] (row121, 21)).2 hmem2 100 rfl (by norm_num)

end Nifty50
